import Mathlib

/-!
Shallow embedding of the adaptive staircase procedure controller of this
repository (`src/handlers/staircasehandler.py`: class `StaircaseHandler`
with its companion classes `DataPoint` and `DataWrangler`), together with
theorems settling the specification claims about it.

Conventions of the embedding:

* Python numbers (levels, step sizes, responses) are `Int`; the counters
  (`nUp`, `nDown`, `nTrials`, `nReversals`, `_trial_num`, `_step_index`,
  `_n_back`) are `Nat`.
* The mutable `StaircaseHandler` object is a `Staircase` record; every
  method that mutates `self` becomes a function `Staircase → ... → Staircase`
  whose record update assigns exactly the attributes the method writes,
  with an `if` per branch of the method mirroring its control flow.
* The `DataWrangler` is represented by its only state, the list
  `datapoints`; `DataWrangler._get_reversals` is `getReversals`.
* `status` keeps the Python encoding: `true` = go (Running),
  `false` = stop (Finished).
* `__init__` raises `ValueError` when there are fewer reversals than step
  sizes; construction is therefore `Except ConfigError Staircase`.
* In the source a fresh `DataPoint` is appended to the wrangler first and
  its `reversal` field is filled in before anything reads the collection,
  so the embedding appends the completed record at that same point.
-/

/-- One trial record (`DataPoint` in the source): trial number, the level
presented on that trial, the raw response, and the reversal flag. -/
structure DataPoint where
  trial_number : Nat
  level : Int
  response : Int
  reversal : Bool
deriving DecidableEq

/-- State of a `StaircaseHandler`, fields in the order `__init__` assigns
them (`scores` is the full response history, `level_tracker` is
`_level_tracker`, the rolling same-direction response window). -/
structure Staircase where
  current_level : Int
  step_sizes : List Int
  up_arg : Nat
  down_arg : Nat
  nTrials : Nat
  nReversals : Nat
  rapid_descend : Bool
  min_val : Int
  max_val : Int
  nUp : Nat
  nDown : Nat
  scores : List Int
  level_tracker : List Int
  step_index : Nat
  trial_num : Nat
  n_back : Nat
  status : Bool
  datapoints : List DataPoint
deriving DecidableEq

/-- Construction-time error (the `ValueError` raised by `__init__` when
`nReversals < len(step_sizes)`). -/
inductive ConfigError where
  | insufficientReversals
deriving DecidableEq

/-- The state `__init__` builds when validation passes: the effective
up/down rule is forced to 1-up/1-down when `rapid_descend` is set,
`_n_back = nDown + 1`, counters at zero, empty histories, `status` go. -/
def initState (start_val : Int) (step_sizes : List Int)
    (nUp nDown nTrials nReversals : Nat) (rapid_descend : Bool)
    (min_val max_val : Int) : Staircase :=
  { current_level := start_val
    step_sizes := step_sizes
    up_arg := nUp
    down_arg := nDown
    nTrials := nTrials
    nReversals := nReversals
    rapid_descend := rapid_descend
    min_val := min_val
    max_val := max_val
    nUp := if rapid_descend then 1 else nUp
    nDown := if rapid_descend then 1 else nDown
    scores := []
    level_tracker := []
    step_index := 0
    trial_num := 0
    n_back := (if rapid_descend then 1 else nDown) + 1
    status := true
    datapoints := [] }

/-- `StaircaseHandler.__init__`: fails iff `nReversals < len(step_sizes)`,
otherwise yields the initial state. -/
def mkStaircase (start_val : Int) (step_sizes : List Int)
    (nUp nDown nTrials nReversals : Nat) (rapid_descend : Bool)
    (min_val max_val : Int) : Except ConfigError Staircase :=
  if nReversals < step_sizes.length then
    .error .insufficientReversals
  else
    .ok (initState start_val step_sizes nUp nDown nTrials nReversals
          rapid_descend min_val max_val)

/-- `DataWrangler._get_reversals`: the data points whose reversal flag is set. -/
def getReversals (dps : List DataPoint) : List DataPoint :=
  dps.filter (fun d => d.reversal)

/-- `StaircaseHandler._handle_response`: a response of `1` or `-1` is
appended to both `scores` and `_level_tracker`; any other value is only
logged (`logger.critical`) and nothing is appended. -/
def handle_response (s : Staircase) (response : Int) : Staircase :=
  { s with
    scores :=
      if response = 1 then s.scores ++ [1]
      else if response = -1 then s.scores ++ [-1]
      else s.scores
    level_tracker :=
      if response = 1 then s.level_tracker ++ [1]
      else if response = -1 then s.level_tracker ++ [-1]
      else s.level_tracker }

/-- `StaircaseHandler._calc_reversals`: the last `_n_back` entries of
`scores` are compared against `[1]*nDown ++ [-1]` (`reversal_1`) and
`[-1] ++ [1]*nDown` (`reversal_2`); `np.array_equal` also compares
lengths, so a shorter history never matches. -/
def calc_reversals (s : Staircase) : Bool :=
  let reversal_1 : List Int := List.replicate s.nDown 1 ++ [-1]
  let reversal_2 : List Int := -1 :: List.replicate s.nDown 1
  let window := s.scores.drop (s.scores.length - s.n_back)
  window == reversal_1 || window == reversal_2

/-- `StaircaseHandler._calc_next_step_size`: `_step_index` becomes the
number of reversal-flagged data points, capped at the last index of
`step_sizes` when it would run past the schedule. -/
def calc_next_step_size (s : Staircase) : Staircase :=
  { s with
    step_index :=
      if s.step_sizes.length ≤ (getReversals s.datapoints).length then
        s.step_sizes.length - 1
      else
        (getReversals s.datapoints).length }

/-- `StaircaseHandler._calc_level`: when `_level_tracker` equals
`nDown` consecutive `1`s the level drops by the current step size and the
tracker is cleared; else when the tracker holds a `-1` the level rises by
the current step size and the tracker is cleared; then the level is
clamped into `[min_val, max_val]`.  The step lookup is total here
(`getD _ 0`); the source would raise `IndexError` on an empty schedule,
which no settled claim depends on. -/
def calc_level (s : Staircase) : Staircase :=
  let step := s.step_sizes.getD s.step_index 0
  let moved :=
    if s.level_tracker == List.replicate s.nDown 1 then s.current_level - step
    else if s.level_tracker.contains (-1) then s.current_level + step
    else s.current_level
  { s with
    current_level :=
      if s.max_val < moved then s.max_val
      else if moved < s.min_val then s.min_val
      else moved
    level_tracker :=
      if s.level_tracker == List.replicate s.nDown 1 then []
      else if s.level_tracker.contains (-1) then []
      else s.level_tracker }

/-- `StaircaseHandler._check_up_down_rule`: once `rapid_descend` is set and
at least one reversal has been recorded, restore the configured up/down
rule and recompute `_n_back` (`add_response` additionally guards the call
with `if self.rapid_descend`, which collapses into the same condition). -/
def check_up_down_rule (s : Staircase) : Staircase :=
  { s with
    nUp :=
      if s.rapid_descend = true ∧ 1 ≤ (getReversals s.datapoints).length then
        s.up_arg
      else s.nUp
    nDown :=
      if s.rapid_descend = true ∧ 1 ≤ (getReversals s.datapoints).length then
        s.down_arg
      else s.nDown
    n_back :=
      if s.rapid_descend = true ∧ 1 ≤ (getReversals s.datapoints).length then
        s.down_arg + 1
      else s.n_back }

/-- `StaircaseHandler._check_for_end_of_staircase`: when the (not yet
incremented) trial counter has reached `nTrials` and the reversal count
has reached `nReversals`, `status` becomes stop. -/
def check_for_end (s : Staircase) : Staircase :=
  { s with
    status :=
      if s.nTrials ≤ s.trial_num ∧ s.nReversals ≤ (getReversals s.datapoints).length then
        false
      else s.status }

/-- `StaircaseHandler.add_response`, in the source order: create and append
the `DataPoint` (trial number and level read before any update), score the
response, set the point's reversal flag from the updated history, then
`_calc_next_step_size`, `_calc_level`, `_check_up_down_rule`,
`_check_for_end_of_staircase`, and finally `_increase_trial_num`. -/
def add_response (s : Staircase) (response : Int) : Staircase :=
  let s1 := handle_response s response
  let dp : DataPoint :=
    { trial_number := s.trial_num
      level := s.current_level
      response := response
      reversal := calc_reversals s1 }
  let s2 := { s1 with datapoints := s1.datapoints ++ [dp] }
  let s3 := calc_next_step_size s2
  let s4 := calc_level s3
  let s5 := check_up_down_rule s4
  let s6 := check_for_end s5
  { s6 with trial_num := s6.trial_num + 1 }

/-- Feed an ordered sequence of responses to the controller. -/
def run_responses (s : Staircase) (rs : List Int) : Staircase :=
  rs.foldl add_response s

/-- Configuration of concrete scenarios 1 and 2 of the specification:
start 60, steps `[8, 4]`, 1-up/2-down, 10 trials, 2 reversals, no rapid
descend, bounds `[50, 80]`. -/
def stC4 : Staircase := initState 60 [8, 4] 1 2 10 2 false 50 80

/-- Fields of the configuration are never written after construction. -/
lemma add_response_min_val (s : Staircase) (r : Int) :
    (add_response s r).min_val = s.min_val := rfl

lemma add_response_max_val (s : Staircase) (r : Int) :
    (add_response s r).max_val = s.max_val := rfl

lemma add_response_step_sizes (s : Staircase) (r : Int) :
    (add_response s r).step_sizes = s.step_sizes := rfl

lemma add_response_rapid_descend (s : Staircase) (r : Int) :
    (add_response s r).rapid_descend = s.rapid_descend := rfl

lemma add_response_down_arg (s : Staircase) (r : Int) :
    (add_response s r).down_arg = s.down_arg := rfl

/-- The trial counter is incremented exactly once per call. -/
lemma add_response_trial_num (s : Staircase) (r : Int) :
    (add_response s r).trial_num = s.trial_num + 1 := rfl

/-- Each call appends exactly one completed `DataPoint`, carrying the
pre-call trial number and level, the raw response, and the reversal flag
computed from the updated score history. -/
lemma add_response_datapoints (s : Staircase) (r : Int) :
    (add_response s r).datapoints
      = s.datapoints ++
        [{ trial_number := s.trial_num, level := s.current_level,
           response := r, reversal := calc_reversals (handle_response s r) }] := rfl

/-- Unfolding of the post-call `status`. -/
lemma add_response_status (s : Staircase) (r : Int) :
    (add_response s r).status =
      if s.nTrials ≤ s.trial_num ∧
          s.nReversals ≤ (getReversals ((add_response s r).datapoints)).length then
        false
      else s.status := rfl

/-- Unfolding of the post-call `step_index`. -/
lemma add_response_step_index (s : Staircase) (r : Int) :
    (add_response s r).step_index =
      if s.step_sizes.length ≤ (getReversals ((add_response s r).datapoints)).length then
        s.step_sizes.length - 1
      else (getReversals ((add_response s r).datapoints)).length := rfl

/-- Unfolding of the post-call effective `nDown`. -/
lemma add_response_nDown (s : Staircase) (r : Int) :
    (add_response s r).nDown =
      if s.rapid_descend = true ∧
          1 ≤ (getReversals ((add_response s r).datapoints)).length then
        s.down_arg
      else s.nDown := rfl

/-- Unfolding of the post-call `n_back`. -/
lemma add_response_n_back (s : Staircase) (r : Int) :
    (add_response s r).n_back =
      if s.rapid_descend = true ∧
          1 ≤ (getReversals ((add_response s r).datapoints)).length then
        s.down_arg + 1
      else s.n_back := rfl

lemma getReversals_append (a b : List DataPoint) :
    getReversals (a ++ b) = getReversals a ++ getReversals b :=
  List.filter_append _ _

/-- The reversal count never decreases across a call. -/
lemma getReversals_le_add_response (s : Staircase) (r : Int) :
    (getReversals s.datapoints).length
      ≤ (getReversals ((add_response s r).datapoints)).length := by
  rw [add_response_datapoints, getReversals_append, List.length_append]
  exact Nat.le_add_right _ _

/-- Matching the last `p.length` entries of a list against `p` is the same
as `p` being a suffix. -/
lemma drop_eq_iff_suffix (l p : List Int) :
    l.drop (l.length - p.length) = p ↔ ∃ t, l = t ++ p := by
  constructor
  · intro h
    have ht := List.take_append_drop (l.length - p.length) l
    rw [h] at ht
    exact ⟨_, ht.symm⟩
  · rintro ⟨t, rfl⟩
    rw [List.length_append, Nat.add_sub_cancel]
    exact List.drop_left t p

/-- C3 (confirmed): with `_n_back = nDown + 1` (the relation the handler
maintains), `_calc_reversals` returns true iff the score history ends in
`[1]*nDown ++ [-1]` or `[-1] ++ [1]*nDown`, and a history shorter than
`nDown + 1` entries never yields a reversal. -/
theorem C3_reversal_detection (s : Staircase) (h : s.n_back = s.nDown + 1) :
    (calc_reversals s = true ↔
      ((∃ t, s.scores = t ++ (List.replicate s.nDown 1 ++ [-1])) ∨
       (∃ t, s.scores = t ++ (-1 :: List.replicate s.nDown 1)))) ∧
    (s.scores.length < s.nDown + 1 → calc_reversals s = false) := by
  have h1 : (List.replicate s.nDown (1 : Int) ++ [-1]).length = s.nDown + 1 := by
    simp
  have h2 : ((-1 : Int) :: List.replicate s.nDown 1).length = s.nDown + 1 := by
    simp
  have hiff : calc_reversals s = true ↔
      ((∃ t, s.scores = t ++ (List.replicate s.nDown 1 ++ [-1])) ∨
       (∃ t, s.scores = t ++ (-1 :: List.replicate s.nDown 1))) := by
    unfold calc_reversals
    simp only [Bool.or_eq_true, beq_iff_eq]
    rw [h, ← h1]
    rw [drop_eq_iff_suffix]
    rw [h1, ← h2, drop_eq_iff_suffix]
  refine ⟨hiff, fun hlt => ?_⟩
  rcases Bool.eq_false_or_eq_true (calc_reversals s) with hcr | hcr
  swap
  · exact hcr
  · exfalso
    rcases hiff.1 hcr with ⟨t, ht⟩ | ⟨t, ht⟩
    · have := congrArg List.length ht
      rw [List.length_append, h1] at this
      omega
    · have := congrArg List.length ht
      rw [List.length_append, h2] at this
      omega

/-- C3 witness: the iff and the short-history clause, instantiated at the
state reached after the concrete run of scenario 2. -/
theorem C3_witness :
    (run_responses stC4 [1, 1, -1]).n_back
        = (run_responses stC4 [1, 1, -1]).nDown + 1 ∧
    ((calc_reversals (run_responses stC4 [1, 1, -1]) = true ↔
      ((∃ t, (run_responses stC4 [1, 1, -1]).scores
          = t ++ (List.replicate (run_responses stC4 [1, 1, -1]).nDown 1 ++ [-1])) ∨
       (∃ t, (run_responses stC4 [1, 1, -1]).scores
          = t ++ (-1 :: List.replicate (run_responses stC4 [1, 1, -1]).nDown 1)))) ∧
     ((run_responses stC4 [1, 1, -1]).scores.length
          < (run_responses stC4 [1, 1, -1]).nDown + 1 →
        calc_reversals (run_responses stC4 [1, 1, -1]) = false)) :=
  ⟨by decide, C3_reversal_detection (run_responses stC4 [1, 1, -1]) (by decide)⟩

/-- C4 (confirmed): under the configuration of scenario 2 the responses
`[1, 1, -1]` present the levels `[60, 60, 52]`, flag a reversal only on
the third trial, advance `step_index` to 1 on that trial, and leave
`current_level` at `56 = 52 + 4`. -/
theorem C4_concrete_run :
    (run_responses stC4 [1, 1, -1]).datapoints.map (fun d => d.level)
        = [60, 60, 52] ∧
    (run_responses stC4 [1, 1, -1]).datapoints.map (fun d => d.reversal)
        = [false, false, true] ∧
    (run_responses stC4 [1, 1, -1]).current_level = 56 ∧
    (run_responses stC4 [1, 1, -1]).step_index = 1 := by decide

/-- Configuration for the termination counterexample: start 60, one step
size `[8]`, 1-up/1-down, `nTrials = 2`, `nReversals = 1`, bounds
`[0, 100]`. -/
def stC1 : Staircase := initState 60 [8] 1 1 2 1 false 0 100

/-- C1 counterexample: after feeding `[1, -1]`, two trials have been
processed (`trial_num = 2 ≥ nTrials = 2`) and one reversal is on record
(`≥ nReversals = 1`), yet the handler still reports Running (`status =
true`): the termination test compares the counter before its increment,
so finishing needs `nTrials + 1` processed trials, not `nTrials`. -/
theorem C1_counterexample :
    (run_responses stC1 [1, -1]).trial_num = 2 ∧
    (run_responses stC1 [1, -1]).nTrials = 2 ∧
    (getReversals (run_responses stC1 [1, -1]).datapoints).length = 1 ∧
    (run_responses stC1 [1, -1]).nReversals = 1 ∧
    (run_responses stC1 [1, -1]).status = true := by decide

/-- C1 (corrected): after a `add_response` call the handler is Finished
iff it was already Finished or the pre-call trial counter has reached
`nTrials` (so the trial just processed is not counted: `trial_num ≥
nTrials`, not `trial_num + 1 ≥ nTrials`) and the number of
reversal-flagged records, including the current trial's, has reached
`nReversals`; otherwise it stays Running. -/
theorem C1_amended_termination (s : Staircase) (r : Int) :
    (add_response s r).status = false ↔
      (s.status = false ∨
        (s.nTrials ≤ s.trial_num ∧
          s.nReversals ≤ (getReversals ((add_response s r).datapoints)).length)) := by
  rw [add_response_status]
  by_cases hc : s.nTrials ≤ s.trial_num ∧
      s.nReversals ≤ (getReversals ((add_response s r).datapoints)).length
  · simp [hc]
  · simp [hc]

/-- C2 counterexample: feeding the invalid response `0` to a fresh
handler does not fail and does not leave the state unchanged: a
`DataPoint` is appended and the trial counter moves from 0 to 1. -/
theorem C2_counterexample :
    stC4.trial_num = 0 ∧ stC4.datapoints.length = 0 ∧
    (add_response stC4 0).trial_num = 1 ∧
    (add_response stC4 0).datapoints.length = 1 := by decide

/-- C2 (corrected): a response other than `1` and `-1` is only logged:
the call does not fail, the score history is unchanged, but a
`TrialRecord` carrying the invalid response (and a reversal flag
recomputed from the unchanged history) is still appended and the trial
counter is still incremented; the rest of the pipeline also runs. -/
theorem C2_amended_invalid_response (s : Staircase) (r : Int)
    (h1 : r ≠ 1) (h2 : r ≠ -1) :
    (add_response s r).scores = s.scores ∧
    (add_response s r).datapoints
      = s.datapoints ++
        [{ trial_number := s.trial_num, level := s.current_level,
           response := r, reversal := calc_reversals s }] ∧
    (add_response s r).trial_num = s.trial_num + 1 := by
  have hh : handle_response s r = s := by
    unfold handle_response
    rw [if_neg h1, if_neg h2, if_neg h1, if_neg h2]
  refine ⟨?_, ?_, rfl⟩
  · show (handle_response s r).scores = s.scores
    rw [hh]
  · rw [add_response_datapoints, hh]

/-- C2 witness: the corrected behaviour at the concrete invalid response 0. -/
theorem C2_witness :
    (0 : Int) ≠ 1 ∧ (0 : Int) ≠ -1 ∧
    ((add_response stC4 0).scores = stC4.scores ∧
     (add_response stC4 0).datapoints
       = stC4.datapoints ++
         [{ trial_number := stC4.trial_num, level := stC4.current_level,
            response := 0, reversal := calc_reversals stC4 }] ∧
     (add_response stC4 0).trial_num = stC4.trial_num + 1) :=
  ⟨by decide, by decide,
    C2_amended_invalid_response stC4 0 (by decide) (by decide)⟩

/-- Clamping into `[mn, mx]` lands inside the interval when `mn ≤ mx`. -/
lemma clamp_bounds (mn mx v : Int) (h : mn ≤ mx) :
    mn ≤ (if mx < v then mx else if v < mn then mn else v) ∧
    (if mx < v then mx else if v < mn then mn else v) ≤ mx := by
  split_ifs <;> omega

/-- The level is inside `[min_val, max_val]` after every `_calc_level`. -/
lemma calc_level_bounds (s : Staircase) (h : s.min_val ≤ s.max_val) :
    s.min_val ≤ (calc_level s).current_level ∧
    (calc_level s).current_level ≤ s.max_val :=
  clamp_bounds s.min_val s.max_val _ h

/-- The level is inside `[min_val, max_val]` after every call. -/
lemma add_response_level_bounds (s : Staircase) (r : Int)
    (h : s.min_val ≤ s.max_val) :
    s.min_val ≤ (add_response s r).current_level ∧
    (add_response s r).current_level ≤ s.max_val :=
  calc_level_bounds
    (calc_next_step_size
      { handle_response s r with
        datapoints := (handle_response s r).datapoints ++
          [{ trial_number := s.trial_num, level := s.current_level,
             response := r, reversal := calc_reversals (handle_response s r) }] }) h

lemma run_responses_cons (s : Staircase) (r : Int) (rs : List Int) :
    run_responses s (r :: rs) = run_responses (add_response s r) rs := rfl

/-- Bounds on the level propagate through a whole run. -/
lemma run_responses_level_bounds (rs : List Int) (s : Staircase)
    (hmm : s.min_val ≤ s.max_val)
    (h1 : s.min_val ≤ s.current_level) (h2 : s.current_level ≤ s.max_val) :
    (run_responses s rs).min_val = s.min_val ∧
    (run_responses s rs).max_val = s.max_val ∧
    s.min_val ≤ (run_responses s rs).current_level ∧
    (run_responses s rs).current_level ≤ s.max_val := by
  induction rs generalizing s with
  | nil => exact ⟨rfl, rfl, h1, h2⟩
  | cons r rs ih =>
    rw [run_responses_cons]
    have hb := add_response_level_bounds s r hmm
    have hrec := ih (add_response s r) hmm hb.1 hb.2
    simpa [add_response_min_val, add_response_max_val] using hrec

/-- C5 (confirmed): for every configuration with
`min_level ≤ start_level ≤ max_level` and every response sequence,
`min_level ≤ current_level ≤ max_level` holds after every call; the clamp
stores the bound itself, so any overshoot is discarded rather than
carried into a later adjustment. -/
theorem C5_level_bounds (start mn mx : Int) (steps : List Int)
    (nUp nDown nTrials nReversals : Nat) (rapid : Bool) (rs : List Int)
    (h1 : mn ≤ start) (h2 : start ≤ mx)
    (_hv : ∀ r ∈ rs, r = 1 ∨ r = -1) :
    mn ≤ (run_responses
        (initState start steps nUp nDown nTrials nReversals rapid mn mx)
        rs).current_level ∧
    (run_responses
        (initState start steps nUp nDown nTrials nReversals rapid mn mx)
        rs).current_level ≤ mx := by
  have h := run_responses_level_bounds rs
    (initState start steps nUp nDown nTrials nReversals rapid mn mx)
    (le_trans h1 h2) h1 h2
  exact ⟨h.2.2.1, h.2.2.2⟩

/-- C5 witness: the bounds at the concrete scenario-2 run. -/
theorem C5_witness :
    (50 : Int) ≤ 60 ∧ (60 : Int) ≤ 80 ∧
    (∀ r ∈ ([1, 1, -1] : List Int), r = 1 ∨ r = -1) ∧
    ((50 : Int) ≤ (run_responses
        (initState 60 [8, 4] 1 2 10 2 false 50 80) [1, 1, -1]).current_level ∧
     (run_responses
        (initState 60 [8, 4] 1 2 10 2 false 50 80) [1, 1, -1]).current_level ≤ 80) :=
  ⟨by decide, by decide, by decide,
    C5_level_bounds 60 50 80 [8, 4] 1 2 10 2 false [1, 1, -1]
      (by decide) (by decide) (by decide)⟩

/-- With a non-empty schedule, the post-call `step_index` is the capped
reversal count. -/
lemma add_response_step_index_min (s : Staircase) (r : Int)
    (hne : s.step_sizes ≠ []) :
    (add_response s r).step_index
      = min ((getReversals ((add_response s r).datapoints)).length)
          (s.step_sizes.length - 1) := by
  rw [add_response_step_index]
  have hlen : 1 ≤ s.step_sizes.length := List.length_pos.2 hne
  by_cases hc : s.step_sizes.length
      ≤ (getReversals ((add_response s r).datapoints)).length
  · rw [if_pos hc]; omega
  · rw [if_neg hc]; omega

/-- The capped-reversal-count characterisation of `step_index` is an
invariant of whole runs. -/
lemma run_responses_step_index (rs : List Int) (s : Staircase)
    (hne : s.step_sizes ≠ [])
    (h0 : s.step_index
        = min ((getReversals s.datapoints).length) (s.step_sizes.length - 1)) :
    (run_responses s rs).step_index
      = min ((getReversals ((run_responses s rs).datapoints)).length)
          (s.step_sizes.length - 1) := by
  induction rs generalizing s with
  | nil => exact h0
  | cons r rs ih =>
    rw [run_responses_cons]
    exact ih (add_response s r) hne (add_response_step_index_min s r hne)

/-- C6 (confirmed): for every configuration with a non-empty step
schedule and every run, `step_index` equals
`min(reversal_count, length(step_sizes) - 1)` — the reversal count taken
over all recorded trials including the current one — and is therefore
always a valid index into the schedule. -/
theorem C6_step_index (start : Int) (steps : List Int)
    (nUp nDown nTrials nReversals : Nat) (rapid : Bool) (mn mx : Int)
    (rs : List Int) (hne : steps ≠ []) :
    (run_responses
        (initState start steps nUp nDown nTrials nReversals rapid mn mx)
        rs).step_index
      = min ((getReversals ((run_responses
            (initState start steps nUp nDown nTrials nReversals rapid mn mx)
            rs).datapoints)).length)
          (steps.length - 1) ∧
    (run_responses
        (initState start steps nUp nDown nTrials nReversals rapid mn mx)
        rs).step_index < steps.length := by
  have h := run_responses_step_index rs
    (initState start steps nUp nDown nTrials nReversals rapid mn mx)
    hne (by simp [initState, getReversals])
  rw [show (initState start steps nUp nDown nTrials nReversals rapid mn
      mx).step_sizes = steps from rfl] at h
  refine ⟨h, ?_⟩
  rw [h]
  have hlen : 1 ≤ steps.length := List.length_pos.2 hne
  omega

/-- C6 witness: the characterisation at the concrete scenario-2 run. -/
theorem C6_witness :
    ([8, 4] : List Int) ≠ [] ∧
    ((run_responses
        (initState 60 [8, 4] 1 2 10 2 false 50 80) [1, 1, -1]).step_index
      = min ((getReversals ((run_responses
            (initState 60 [8, 4] 1 2 10 2 false 50 80)
            [1, 1, -1]).datapoints)).length)
          (([8, 4] : List Int).length - 1) ∧
     (run_responses
        (initState 60 [8, 4] 1 2 10 2 false 50 80) [1, 1, -1]).step_index
       < ([8, 4] : List Int).length) :=
  ⟨by decide,
    C6_step_index 60 [8, 4] 1 2 10 2 false 50 80 [1, 1, -1] (by decide)⟩

/-- The rapid-descend rule switch is an invariant of whole runs: while no
reversal is on record the effective rule is 1-up/1-down, and from the
first recorded reversal on it is the configured `nDown`. -/
lemma run_responses_rapid_rule (rs : List Int) (s : Staircase) (d : Nat)
    (hr : s.rapid_descend = true) (hd : s.down_arg = d)
    (h1 : (getReversals s.datapoints).length = 0 → s.nDown = 1 ∧ s.n_back = 2)
    (h2 : 1 ≤ (getReversals s.datapoints).length →
        s.nDown = d ∧ s.n_back = d + 1) :
    ((getReversals ((run_responses s rs).datapoints)).length = 0 →
        (run_responses s rs).nDown = 1 ∧ (run_responses s rs).n_back = 2) ∧
    (1 ≤ (getReversals ((run_responses s rs).datapoints)).length →
        (run_responses s rs).nDown = d ∧ (run_responses s rs).n_back = d + 1) := by
  induction rs generalizing s with
  | nil => exact ⟨h1, h2⟩
  | cons r rs ih =>
    rw [run_responses_cons]
    refine ih (add_response s r) hr hd ?_ ?_
    · intro hz
      have hcond : ¬(s.rapid_descend = true ∧
          1 ≤ (getReversals ((add_response s r).datapoints)).length) := by
        rintro ⟨-, hge⟩
        omega
      rw [add_response_nDown, add_response_n_back, if_neg hcond, if_neg hcond]
      have hmono := getReversals_le_add_response s r
      exact h1 (by omega)
    · intro hge
      rw [add_response_nDown, add_response_n_back,
        if_pos ⟨hr, hge⟩, if_pos ⟨hr, hge⟩, hd]
      exact ⟨rfl, rfl⟩

/-- C7 (confirmed): with `rapid_descend` set, the effective rule is
1-up/1-down (`nDown = 1`, `n_back = 2`) at every point up to and
including the call that records the first reversal (the switch happens
after that call's level adjustment), and from the first recorded reversal
on it is the configured `nDown` with `n_back = nDown + 1`. -/
theorem C7_rapid_descend (start : Int) (steps : List Int)
    (nUp nDown nTrials nReversals : Nat) (mn mx : Int) (rs : List Int) :
    ((getReversals ((run_responses
          (initState start steps nUp nDown nTrials nReversals true mn mx)
          rs).datapoints)).length = 0 →
      (run_responses
          (initState start steps nUp nDown nTrials nReversals true mn mx)
          rs).nDown = 1 ∧
      (run_responses
          (initState start steps nUp nDown nTrials nReversals true mn mx)
          rs).n_back = 2) ∧
    (1 ≤ (getReversals ((run_responses
          (initState start steps nUp nDown nTrials nReversals true mn mx)
          rs).datapoints)).length →
      (run_responses
          (initState start steps nUp nDown nTrials nReversals true mn mx)
          rs).nDown = nDown ∧
      (run_responses
          (initState start steps nUp nDown nTrials nReversals true mn mx)
          rs).n_back = nDown + 1) := by
  refine run_responses_rapid_rule rs
    (initState start steps nUp nDown nTrials nReversals true mn mx)
    nDown rfl rfl (fun _ => ⟨rfl, rfl⟩) (fun hge => ?_)
  exact (Nat.not_succ_le_zero 0 hge).elim

/-- C7 witness: a rapid-descend run whose second response records the
first reversal, after which the configured 2-down rule is in force. -/
theorem C7_witness :
    1 ≤ (getReversals ((run_responses
        (initState 60 [8] 1 2 10 1 true 0 100) [1, -1]).datapoints)).length ∧
    ((run_responses (initState 60 [8] 1 2 10 1 true 0 100) [1, -1]).nDown = 2 ∧
     (run_responses (initState 60 [8] 1 2 10 1 true 0 100) [1, -1]).n_back = 3) :=
  ⟨by decide, (C7_rapid_descend 60 [8] 1 2 10 1 0 100 [1, -1]).2 (by decide)⟩

/-- C8 (confirmed): construction fails with `InsufficientReversals`
exactly when `nReversals < length(step_sizes)`, and on success the
controller starts with empty response window and history, zero trials,
`current_level = start_level`, Running status and an empty trial log. -/
theorem C8_construction (start : Int) (steps : List Int)
    (nUp nDown nTrials nReversals : Nat) (rapid : Bool) (mn mx : Int) :
    (mkStaircase start steps nUp nDown nTrials nReversals rapid mn mx
        = Except.error ConfigError.insufficientReversals ↔
      nReversals < steps.length) ∧
    (steps.length ≤ nReversals →
      mkStaircase start steps nUp nDown nTrials nReversals rapid mn mx
          = Except.ok
              (initState start steps nUp nDown nTrials nReversals rapid mn mx) ∧
      (initState start steps nUp nDown nTrials nReversals rapid mn mx).level_tracker
          = [] ∧
      (initState start steps nUp nDown nTrials nReversals rapid mn mx).scores = [] ∧
      (initState start steps nUp nDown nTrials nReversals rapid mn mx).trial_num
          = 0 ∧
      (initState start steps nUp nDown nTrials nReversals rapid mn mx).current_level
          = start ∧
      (initState start steps nUp nDown nTrials nReversals rapid mn mx).status
          = true ∧
      (initState start steps nUp nDown nTrials nReversals rapid mn mx).datapoints
          = []) := by
  constructor
  · unfold mkStaircase
    by_cases hc : nReversals < steps.length
    · rw [if_pos hc]
      simp [hc]
    · rw [if_neg hc]
      simp [hc]
  · intro hle
    unfold mkStaircase
    rw [if_neg (by omega)]
    exact ⟨rfl, rfl, rfl, rfl, rfl, rfl, rfl⟩

/-- C8 witness: four step sizes with only two reversals fail; the
scenario-2 configuration succeeds with the documented initial state. -/
theorem C8_witness :
    mkStaircase 60 [8, 8, 4, 4] 1 2 10 2 false 50 80
        = Except.error ConfigError.insufficientReversals ∧
    mkStaircase 60 [8, 4] 1 2 10 2 false 50 80
        = Except.ok (initState 60 [8, 4] 1 2 10 2 false 50 80) :=
  ⟨(C8_construction 60 [8, 8, 4, 4] 1 2 10 2 false 50 80).1.mpr (by decide),
   ((C8_construction 60 [8, 4] 1 2 10 2 false 50 80).2 (by decide)).1⟩

/-- Observable part of the state: every field except the configured
`up_arg` and the effective `nUp`. -/
def obs (s : Staircase) :
    Int × List Int × Nat × Nat × Nat × Bool × Int × Int × Nat × List Int ×
      List Int × Nat × Nat × Nat × Bool × List DataPoint :=
  (s.current_level, s.step_sizes, s.down_arg, s.nTrials, s.nReversals,
   s.rapid_descend, s.min_val, s.max_val, s.nDown, s.scores,
   s.level_tracker, s.step_index, s.trial_num, s.n_back, s.status,
   s.datapoints)

/-- A single call never consults `up_arg` or `nUp` for anything except
the new `nUp`, so the observable part of the result depends only on the
observable part of the input. -/
lemma obs_add_response (s t : Staircase) (r : Int) (h : obs s = obs t) :
    obs (add_response s r) = obs (add_response t r) := by
  cases s
  cases t
  simp only [obs, Prod.mk.injEq] at h
  obtain ⟨e1, e2, e3, e4, e5, e6, e7, e8, e9, e10, e11, e12, e13, e14, e15, e16⟩ := h
  subst e1 e2 e3 e4 e5 e6 e7 e8 e9 e10 e11 e12 e13 e14 e15 e16
  rfl

lemma obs_run_responses (rs : List Int) (s t : Staircase) (h : obs s = obs t) :
    obs (run_responses s rs) = obs (run_responses t rs) := by
  induction rs generalizing s t with
  | nil => exact h
  | cons r rs ih =>
    rw [run_responses_cons, run_responses_cons]
    exact ih _ _ (obs_add_response s t r h)

/-- C9 (confirmed): two configurations identical except for `n_up`
construct together or fail together, and produce runs with identical
observable state — in particular identical recorded levels and reversal
flags, identical `current_level` and identical termination status after
every call. -/
theorem C9_nUp_irrelevant (start : Int) (steps : List Int)
    (ua ub nDown nTrials nReversals : Nat) (rapid : Bool) (mn mx : Int)
    (rs : List Int) :
    obs (run_responses
        (initState start steps ua nDown nTrials nReversals rapid mn mx) rs)
      = obs (run_responses
        (initState start steps ub nDown nTrials nReversals rapid mn mx) rs) ∧
    (mkStaircase start steps ua nDown nTrials nReversals rapid mn mx).isOk
      = (mkStaircase start steps ub nDown nTrials nReversals rapid mn mx).isOk := by
  constructor
  · exact obs_run_responses rs _ _ rfl
  · unfold mkStaircase
    by_cases hc : nReversals < steps.length
    · rw [if_pos hc, if_pos hc]
    · rw [if_neg hc, if_neg hc]
      rfl

/-- C10 (confirmed): the only constraint construction enforces is
`length(step_sizes) ≤ nReversals`: every configuration satisfying it is
accepted — an empty schedule or a start level outside
`[min_val, max_val]` included — and the level recorded for the first
trial is the unclamped start level. -/
theorem C10_construction_unconstrained (start : Int) (steps : List Int)
    (nUp nDown nTrials nReversals : Nat) (rapid : Bool) (mn mx : Int)
    (h : steps.length ≤ nReversals) :
    mkStaircase start steps nUp nDown nTrials nReversals rapid mn mx
        = Except.ok
            (initState start steps nUp nDown nTrials nReversals rapid mn mx) ∧
    (∀ r : Int,
      ((add_response
          (initState start steps nUp nDown nTrials nReversals rapid mn mx)
          r).datapoints).map (fun d => d.level) = [start]) := by
  constructor
  · unfold mkStaircase
    rw [if_neg (by omega)]
  · intro r
    rw [add_response_datapoints]
    rfl

/-- C10 witness: an empty schedule together with a start level of 100
outside the bounds `[0, 50]` is accepted, and the first trial records the
unclamped level 100. -/
theorem C10_witness :
    ([] : List Int).length ≤ 0 ∧
    (mkStaircase 100 [] 1 2 5 0 false 0 50
        = Except.ok (initState 100 [] 1 2 5 0 false 0 50) ∧
     ((add_response (initState 100 [] 1 2 5 0 false 0 50) 1).datapoints).map
        (fun d => d.level) = [100]) :=
  ⟨by decide,
   (C10_construction_unconstrained 100 [] 1 2 5 0 false 0 50 (by decide)).1,
   (C10_construction_unconstrained 100 [] 1 2 5 0 false 0 50 (by decide)).2 1⟩
